import Mathlib

/-!
Shallow embedding of the OCR web application's frontend source
(frontend/src/types.ts, frontend/src/services/api.ts,
frontend/src/hooks/useOCR.ts, frontend/src/App.tsx,
frontend/src/components/FileUpload.tsx,
frontend/src/components/OCRResult.tsx,
frontend/src/components/History.tsx), together with a handful of
definitions modelled from the specification for backend components
that are not part of the repository snapshot (the ingestion gate,
HistoryStore.list and BlockAggregator.aggregate).
-/

/-! ## A small model of the TypeScript types of frontend/src/types.ts -/

/-- Shallow syntax of the TypeScript types that appear in types.ts.
Nested object types are referred to by interface name (`named`), so the
encoding stays first-order.  `strEnum` models a union of string literal
types; `unknownRecord` models `Record<string, unknown>`. -/
inductive TsType where
  | str : TsType
  | num : TsType
  | array : TsType → TsType
  | nullable : TsType → TsType
  | strEnum : List String → TsType
  | named : String → TsType
  | unknownRecord : TsType
  deriving DecidableEq, Repr

/-- One field of a TypeScript interface: its name, its type, and whether
it is optional (declared with `?:`). -/
structure TsField where
  name : String
  ty : TsType
  optional : Bool
  deriving DecidableEq, Repr

/-- Look up the type of a field by name in an interface's field list. -/
def fieldType (fs : List TsField) (n : String) : Option TsType :=
  match fs.find? (fun f => f.name == n) with
  | some f => some f.ty
  | none => none

/-- The names of an interface's fields, in declaration order. -/
def fieldNames (fs : List TsField) : List String :=
  fs.map (fun f => f.name)

namespace Types

/-- types.ts: `type ProcessingStatus = 'pending' | 'processing' | 'completed' | 'failed'`. -/
def ProcessingStatus : List String :=
  ["pending", "processing", "completed", "failed"]

/-- types.ts: `interface OCRBlock { text; confidence; bbox; page? }`. -/
def OCRBlock : List TsField :=
  [⟨"text", .str, false⟩,
   ⟨"confidence", .num, false⟩,
   ⟨"bbox", .array .num, false⟩,
   ⟨"page", .num, true⟩]

/-- types.ts: `interface OCRResult { text; blocks: OCRBlock[]; markdown: string | null }`. -/
def OCRResult : List TsField :=
  [⟨"text", .str, false⟩,
   ⟨"blocks", .array (.named "OCRBlock"), false⟩,
   ⟨"markdown", .nullable .str, false⟩]

/-- types.ts: `interface OCRResultResponse`. -/
def OCRResultResponse : List TsField :=
  [⟨"id", .str, false⟩,
   ⟨"filename", .str, false⟩,
   ⟨"file_type", .str, false⟩,
   ⟨"created_at", .str, false⟩,
   ⟨"processing_time", .nullable .str, false⟩,
   ⟨"status", .named "ProcessingStatus", false⟩,
   ⟨"ocr_result", .nullable (.named "OCRResult"), false⟩,
   ⟨"error_message", .nullable .str, false⟩]

/-- types.ts: `interface HistoryListItem`. -/
def HistoryListItem : List TsField :=
  [⟨"id", .str, false⟩,
   ⟨"filename", .str, false⟩,
   ⟨"file_type", .str, false⟩,
   ⟨"created_at", .str, false⟩,
   ⟨"status", .named "ProcessingStatus", false⟩,
   ⟨"page_count", .nullable .str, false⟩]

/-- types.ts: `interface HistoryListResponse`. -/
def HistoryListResponse : List TsField :=
  [⟨"items", .array (.named "HistoryListItem"), false⟩,
   ⟨"total", .num, false⟩,
   ⟨"page", .num, false⟩,
   ⟨"page_size", .num, false⟩]

/-- types.ts: `interface StructureBlock { type; content; bbox; confidence }`. -/
def StructureBlock : List TsField :=
  [⟨"type", .str, false⟩,
   ⟨"content", .str, false⟩,
   ⟨"bbox", .array .num, false⟩,
   ⟨"confidence", .num, false⟩]

/-- types.ts: `interface StructureResult { blocks; markdown: string; tables }`. -/
def StructureResult : List TsField :=
  [⟨"blocks", .array (.named "StructureBlock"), false⟩,
   ⟨"markdown", .str, false⟩,
   ⟨"tables", .array .unknownRecord, false⟩]

/-- types.ts: `interface StructureResultResponse`. -/
def StructureResultResponse : List TsField :=
  [⟨"id", .str, false⟩,
   ⟨"filename", .str, false⟩,
   ⟨"created_at", .str, false⟩,
   ⟨"processing_time", .nullable .str, false⟩,
   ⟨"status", .named "ProcessingStatus", false⟩,
   ⟨"structure_result", .nullable (.named "StructureResult"), false⟩,
   ⟨"error_message", .nullable .str, false⟩]

end Types

/-! ## services/api.ts -/

/-- One HTTP request issued through the axios instance of services/api.ts:
its method, its path relative to the `baseURL`, and the name of the
TypeScript response type the call is declared with. -/
structure ApiCall where
  method : String
  path : String
  responseType : String
  deriving DecidableEq, Repr

/-- api.ts: `axios.create({ baseURL: '/api', ... })`. -/
def apiBaseURL : String := "/api"

/-- The absolute URL of an `ApiCall`, obtained by prefixing the axios
instance's `baseURL`. -/
def ApiCall.fullPath (c : ApiCall) : String := apiBaseURL ++ c.path

namespace ocrApi

/-- api.ts: `ocrApi.processImage` POSTs the file to `/ocr/image` and is
typed `Promise<OCRResultResponse>`. -/
def processImage : ApiCall := ⟨"POST", "/ocr/image", "OCRResultResponse"⟩

/-- api.ts: `ocrApi.processPdf` POSTs the file to `/ocr/pdf` and is
typed `Promise<OCRResultResponse>`. -/
def processPdf : ApiCall := ⟨"POST", "/ocr/pdf", "OCRResultResponse"⟩

/-- api.ts: `ocrApi.analyzeStructure` POSTs the file to `/ocr/structure`
and is typed `Promise<StructureResultResponse>`. -/
def analyzeStructure : ApiCall := ⟨"POST", "/ocr/structure", "StructureResultResponse"⟩

/-- api.ts: `ocrApi.getResult(id)` GETs `/ocr/result/{id}` and is typed
`Promise<OCRResultResponse>`. -/
def getResult (id : String) : ApiCall :=
  ⟨"GET", "/ocr/result/" ++ id, "OCRResultResponse"⟩

end ocrApi

namespace historyApi

/-- api.ts: `historyApi.list(page, pageSize, status?)` GETs
`/history?page=&page_size=` (appending `status` only when given) and is
typed `Promise<HistoryListResponse>`. -/
def list (page pageSize : Nat) (status : Option String) : ApiCall :=
  ⟨"GET",
   "/history?page=" ++ toString page ++ "&page_size=" ++ toString pageSize ++
     (match status with
      | some s => "&status=" ++ s
      | none => ""),
   "HistoryListResponse"⟩

end historyApi

/-! ## App.tsx: upload routing -/

/-- FileUpload.tsx / App.tsx: the user-selected processing mode,
`'ocr' | 'structure'`. -/
inductive Mode where
  | ocr : Mode
  | structure : Mode
  deriving DecidableEq, Repr

/-- App.tsx `handleUpload`: structure mode goes to `analyzeStructure`;
otherwise a file whose MIME type is `application/pdf` goes to
`processPdf` and any other file to `processImage`.  The function returns
the single `ApiCall` issued for the upload. -/
def handleUpload (fileMimeType : String) (mode : Mode) : ApiCall :=
  match mode with
  | .structure => ocrApi.analyzeStructure
  | .ocr =>
    if fileMimeType = "application/pdf" then ocrApi.processPdf
    else ocrApi.processImage

/-! ## FileUpload.tsx: dropzone configuration -/

/-- FileUpload.tsx: `ACCEPTED_IMAGE_TYPES`. -/
def ACCEPTED_IMAGE_TYPES : List (String × List String) :=
  [("image/png", [".png"]),
   ("image/jpeg", [".jpg", ".jpeg"]),
   ("image/webp", [".webp"])]

/-- FileUpload.tsx: `ACCEPTED_PDF_TYPES`. -/
def ACCEPTED_PDF_TYPES : List (String × List String) :=
  [("application/pdf", [".pdf"])]

/-- FileUpload.tsx: the `accept` option passed to `useDropzone`,
`{ ...ACCEPTED_IMAGE_TYPES, ...ACCEPTED_PDF_TYPES }`. -/
def dropzoneAccept : List (String × List String) :=
  ACCEPTED_IMAGE_TYPES ++ ACCEPTED_PDF_TYPES

/-- FileUpload.tsx: the `maxFiles` option passed to `useDropzone`. -/
def dropzoneMaxFiles : Nat := 1

/-- Whether the dropzone accepts a file of the given MIME type: the type
must be a key of the `accept` map.  The dropzone configuration contains
no size option, so acceptance does not depend on the file size. -/
def dropzoneAccepts (mimeType : String) : Bool :=
  decide (mimeType ∈ dropzoneAccept.map Prod.fst)

/-- FileUpload.tsx hands an accepted selected file to `onUpload`, which
App.tsx routes via `handleUpload`; a processing request is issued exactly
for files the dropzone accepted, whatever their size (the "max 50MB"
string in the component is a display hint only). -/
def requestIssued (mimeType : String) (_sizeBytes : Nat) : Bool :=
  dropzoneAccepts mimeType

/-! ## Runtime values for the response types -/

/-- Runtime values of `ProcessingStatus`. -/
inductive Status where
  | pending : Status
  | processing : Status
  | completed : Status
  | failed : Status
  deriving DecidableEq, Repr

/-- The JSON string of a `Status` value. -/
def Status.toStr : Status → String
  | .pending => "pending"
  | .processing => "processing"
  | .completed => "completed"
  | .failed => "failed"

/-- A runtime `OCRBlock` value.  The numeric fields are modelled over ℚ;
none of the verified properties depend on floating-point behaviour. -/
structure OCRBlockV where
  text : String
  confidence : ℚ
  bbox : List ℚ
  page : Option Nat
  deriving DecidableEq, Repr

/-- A runtime `OCRResult` value. -/
structure OCRResultV where
  text : String
  blocks : List OCRBlockV
  markdown : Option String
  deriving DecidableEq, Repr

/-- A runtime `StructureBlock` value. -/
structure StructureBlockV where
  type : String
  content : String
  bbox : List ℚ
  confidence : ℚ
  deriving DecidableEq, Repr

/-- A runtime `StructureResult` value.  Each table is an opaque record,
modelled as a list of key/value string pairs. -/
structure StructureResultV where
  blocks : List StructureBlockV
  markdown : String
  tables : List (List (String × String))
  deriving DecidableEq, Repr

/-- A runtime `OCRResultResponse` value. -/
structure OCRResultResponseV where
  id : String
  filename : String
  file_type : String
  created_at : String
  processing_time : Option String
  status : Status
  ocr_result : Option OCRResultV
  error_message : Option String
  deriving DecidableEq, Repr

/-- A runtime `StructureResultResponse` value. -/
structure StructureResultResponseV where
  id : String
  filename : String
  created_at : String
  processing_time : Option String
  status : Status
  structure_result : Option StructureResultV
  error_message : Option String
  deriving DecidableEq, Repr

/-! ## Backend job delivery, modelled from the spec -/

/-- A persisted Job record (spec §3), restricted to the flat-OCR fields
a response carries. -/
structure Job where
  id : String
  filename : String
  file_type : String
  created_at : String
  processing_time : Option String
  status : Status
  ocr_result : Option OCRResultV
  error_message : Option String
  deriving DecidableEq, Repr

/-- The Job invariants of spec §3: `result` populated iff completed and
`error_message` populated iff failed. -/
def Job.wf (j : Job) : Prop :=
  (j.ocr_result ≠ none ↔ j.status = .completed) ∧
  (j.error_message ≠ none ↔ j.status = .failed)

/-- Modelled from the spec: the backend serialization of a Job into the
body of a processing response (absent from src/, which holds only the
frontend).  Per spec §7, processing failures are delivered as an
ordinary 200-shaped response body carrying the job's own fields —
`status: "failed"` and `error_message` — not as a transport-level
error. -/
def jobToResponse (j : Job) : OCRResultResponseV :=
  { id := j.id
  , filename := j.filename
  , file_type := j.file_type
  , created_at := j.created_at
  , processing_time := j.processing_time
  , status := j.status
  , ocr_result := j.ocr_result
  , error_message := j.error_message }

/-! ## OCRResult.tsx: rendering of a result -/

/-- JavaScript `a || b` on a nullable string: the empty string is falsy,
so both `null` and `""` fall through to the default. -/
def jsStrOr (o : Option String) (defaultStr : String) : String :=
  match o with
  | some s => if s = "" then defaultStr else s
  | none => defaultStr

/-- What the `OCRResult` component renders: whether the red error box is
shown (and with which text), and whether the content area (view-mode
tabs, content pane, actions) is shown. -/
structure RenderedView where
  showsErrorBox : Bool
  errorText : String
  showsContentTabs : Bool
  deriving DecidableEq, Repr

/-- OCRResult.tsx: `activeResult = result || structureResult`; its
`status`, when a result is present. -/
def activeStatus (result : Option OCRResultResponseV)
    (structureResult : Option StructureResultResponseV) : Option Status :=
  match result with
  | some r => some r.status
  | none => structureResult.map (fun sr => sr.status)

/-- OCRResult.tsx: `activeResult.error_message`, when a result is
present. -/
def activeErrorMessage (result : Option OCRResultResponseV)
    (structureResult : Option StructureResultResponseV) : Option (Option String) :=
  match result with
  | some r => some r.error_message
  | none => structureResult.map (fun sr => sr.error_message)

/-- OCRResult.tsx: `ocrData = result?.ocr_result || structureResult?.structure_result`
is truthy. -/
def ocrDataPresent (result : Option OCRResultResponseV)
    (structureResult : Option StructureResultResponseV) : Bool :=
  (match result with
   | some r => r.ocr_result.isSome
   | none => false) ||
  (match structureResult with
   | some sr => sr.structure_result.isSome
   | none => false)

/-- The render function of the `OCRResult` component: `null` when no
result is active; otherwise the error box is shown iff
`status === 'failed'` (with `error_message || 'An error occurred'` as
its text) and the content area is shown iff not in the error state and
`ocrData` is truthy. -/
def OCRResultView (result : Option OCRResultResponseV)
    (structureResult : Option StructureResultResponseV) : Option RenderedView :=
  match activeStatus result structureResult,
        activeErrorMessage result structureResult with
  | some st, some em =>
    let isError := st = Status.failed
    some { showsErrorBox := isError
         , errorText := jsStrOr em "An error occurred"
         , showsContentTabs := !isError && ocrDataPresent result structureResult }
  | _, _ => none

/-! ## Backend pieces modelled from the spec (absent from src/) -/

/-- Modelled from the spec: the backend ingestion boundary (absent from
src/) — "All file-size/type constraints (accepted image formats, PDF,
maximum upload size) are enforced at the ingestion boundary and rejected
before a Job is created".  The maximum upload size shown to the user is
50MB. -/
def MAX_UPLOAD_SIZE : Nat := 50 * 1024 * 1024

/-- Modelled from the spec: the ingestion gate accepts a file iff its
MIME type is one of the accepted formats and its size does not exceed
the maximum upload size. -/
def ingestionGate (mimeType : String) (sizeBytes : Nat) : Bool :=
  dropzoneAccepts mimeType && decide (sizeBytes ≤ MAX_UPLOAD_SIZE)

/-- Modelled from the spec: a Job record is created exactly for uploads
the ingestion gate accepts — rejections "never produce a Job record". -/
def jobCreated (mimeType : String) (sizeBytes : Nat) : Bool :=
  ingestionGate mimeType sizeBytes

/-- Modelled from the spec: `HistoryStore.list` (backend, absent from
src/) — offset-based pagination: page 1 begins at the newest record,
`page_size` bounds the returned slice, and `total` always reflects the
full count, computed independently of the slice.  `jobs` is the stored
sequence already ordered newest first. -/
def HistoryStore.list {α : Type} (jobs : List α) (page pageSize : Nat) :
    List α × Nat :=
  ((jobs.drop ((page - 1) * pageSize)).take pageSize, jobs.length)

/-- Modelled from the spec: `BlockAggregator.aggregate` (backend, absent
from src/) — concatenates per-page text with a blank-line separator in
page order, flattens the detections into one block list tagged with the
source page index, and leaves the markdown field null in flat OCR mode.
Each input pair is one page's (text, detections). -/
def aggregate {α : Type} (pages : List (String × List α)) :
    String × List (α × Nat) × Option String :=
  (String.intercalate "\n\n" (pages.map Prod.fst),
   (pages.enum.map (fun pi => pi.2.2.map (fun b => (b, pi.1)))).flatten,
   none)

/-! ## hooks/useOCR.ts as a state machine -/

/-- The state held by the `useOCR` hook. -/
structure UseOCRState where
  isLoading : Bool
  error : Option String
  result : Option OCRResultResponseV
  structureResult : Option StructureResultResponseV
  deriving DecidableEq, Repr

/-- The initial state of the hook: all `useState` initialisers. -/
def UseOCRState.initial : UseOCRState :=
  { isLoading := false, error := none, result := none, structureResult := none }

/-- The outcome of an awaited API call: the parsed response, or a thrown
error's message. -/
inductive Outcome (α : Type) where
  | success : α → Outcome α
  | failure : String → Outcome α
  deriving DecidableEq, Repr

/-- The state right after any of the four operations has run its opening
statements — `setIsLoading(true)` and the three clears — and before its
`try` block resolves.  All four operations share this prologue. -/
def UseOCRState.opBegin (_s : UseOCRState) : UseOCRState :=
  { isLoading := true, error := none, result := none, structureResult := none }

/-- useOCR.ts `processImage` run to completion on a given outcome:
prologue, then `setResult(response)` on success or `setError(message)`
on a thrown error, then `setIsLoading(false)`. -/
def UseOCRState.processImage (s : UseOCRState)
    (o : Outcome OCRResultResponseV) : UseOCRState :=
  match o with
  | .success r => { s.opBegin with isLoading := false, result := some r }
  | .failure m => { s.opBegin with isLoading := false, error := some m }

/-- useOCR.ts `processPdf` run to completion: identical state effect to
`processImage`, only the API call differs. -/
def UseOCRState.processPdf (s : UseOCRState)
    (o : Outcome OCRResultResponseV) : UseOCRState :=
  match o with
  | .success r => { s.opBegin with isLoading := false, result := some r }
  | .failure m => { s.opBegin with isLoading := false, error := some m }

/-- useOCR.ts `analyzeStructure` run to completion: prologue, then
`setStructureResult(response)` on success. -/
def UseOCRState.analyzeStructure (s : UseOCRState)
    (o : Outcome StructureResultResponseV) : UseOCRState :=
  match o with
  | .success r => { s.opBegin with isLoading := false, structureResult := some r }
  | .failure m => { s.opBegin with isLoading := false, error := some m }

/-- useOCR.ts `loadFromHistory` run to completion: prologue, then
`setResult(response)` on success (it reuses the flat-OCR result slot). -/
def UseOCRState.loadFromHistory (s : UseOCRState)
    (o : Outcome OCRResultResponseV) : UseOCRState :=
  match o with
  | .success r => { s.opBegin with isLoading := false, result := some r }
  | .failure m => { s.opBegin with isLoading := false, error := some m }

/-- useOCR.ts `reset`: clears every piece of state. -/
def UseOCRState.reset (_s : UseOCRState) : UseOCRState :=
  UseOCRState.initial

/-- The actions observable on the hook.  `opBegin` exposes the moment an
operation has cleared state but not yet resolved, so the invariant is
checked at intermediate points too. -/
inductive OCRAction where
  | beginOp : OCRAction
  | processImage : Outcome OCRResultResponseV → OCRAction
  | processPdf : Outcome OCRResultResponseV → OCRAction
  | analyzeStructure : Outcome StructureResultResponseV → OCRAction
  | loadFromHistory : Outcome OCRResultResponseV → OCRAction
  | reset : OCRAction

/-- One action applied to the hook state. -/
def UseOCRState.step (s : UseOCRState) : OCRAction → UseOCRState
  | .beginOp => s.opBegin
  | .processImage o => s.processImage o
  | .processPdf o => s.processPdf o
  | .analyzeStructure o => s.analyzeStructure o
  | .loadFromHistory o => s.loadFromHistory o
  | .reset => s.reset

/-- The hook state after a sequence of actions from the initial state. -/
def UseOCRState.run (acts : List OCRAction) : UseOCRState :=
  acts.foldl UseOCRState.step UseOCRState.initial

/-- The mutual-exclusion invariant: `result` and `structureResult` are
never simultaneously non-null. -/
def UseOCRState.exclusive (s : UseOCRState) : Prop :=
  s.result = none ∨ s.structureResult = none

/-! ## History.tsx as a state machine -/

/-- The fields of a fetched `HistoryListResponse` that drive pagination. -/
structure HistoryListResponseV where
  total : Nat
  page_size : Nat
  deriving DecidableEq, Repr

/-- The state held by the `History` component: the current page number
and the last fetched listing (null until a fetch succeeds). -/
structure HistoryState where
  page : Nat
  history : Option HistoryListResponseV
  deriving DecidableEq, Repr

/-- The initial state: `useState(1)` for the page, `useState(null)` for
the listing. -/
def HistoryState.initial : HistoryState := { page := 1, history := none }

/-- History.tsx: `fetchHistory` always requests the current page with a
fixed page size of 10 and no status filter: `historyApi.list(page, 10)`. -/
def HistoryState.fetchCall (s : HistoryState) : ApiCall :=
  historyApi.list s.page 10 none

/-- History.tsx: `totalPages = history ? Math.ceil(history.total / history.page_size) : 0`.
For natural `total` and positive `page_size`, `Math.ceil` of the exact
quotient is `(total + page_size - 1) / page_size` in ℕ. -/
def historyTotalPages (history : Option HistoryListResponseV) : Nat :=
  match history with
  | some h => (h.total + h.page_size - 1) / h.page_size
  | none => 0

/-- The `totalPages` value of a component state. -/
def HistoryState.totalPages (s : HistoryState) : Nat :=
  historyTotalPages s.history

/-- History.tsx: the Previous button's click handler,
`setPage(p => Math.max(1, p - 1))`. -/
def prevHandler (p : Nat) : Nat := max 1 (p - 1)

/-- History.tsx: the Next button's click handler,
`setPage(p => Math.min(totalPages, p + 1))`. -/
def nextHandler (totalPages p : Nat) : Nat := min totalPages (p + 1)

/-- History.tsx: the pagination bar is rendered only when
`totalPages > 1`. -/
def HistoryState.paginationShown (s : HistoryState) : Bool :=
  decide (1 < s.totalPages)

/-- History.tsx: the Previous button is disabled when `page === 1`. -/
def HistoryState.prevDisabled (s : HistoryState) : Bool :=
  decide (s.page = 1)

/-- History.tsx: the Next button is disabled when `page === totalPages`. -/
def HistoryState.nextDisabled (s : HistoryState) : Bool :=
  decide (s.page = s.totalPages)

/-- The events that change the component's state: a fetch completing
with a server response, and clicks on the two pagination buttons.  A
click fires only when the pagination bar is rendered and the button is
enabled; otherwise the state is unchanged. -/
inductive HistoryAction where
  | fetched : HistoryListResponseV → HistoryAction
  | clickPrev : HistoryAction
  | clickNext : HistoryAction

/-- One event applied to the component state. -/
def HistoryState.step (s : HistoryState) : HistoryAction → HistoryState
  | .fetched resp => { s with history := some resp }
  | .clickPrev =>
    if s.paginationShown && !s.prevDisabled then
      { s with page := prevHandler s.page }
    else s
  | .clickNext =>
    if s.paginationShown && !s.nextDisabled then
      { s with page := nextHandler s.totalPages s.page }
    else s

/-- The component state after a sequence of events from the initial
state. -/
def HistoryState.run (acts : List HistoryAction) : HistoryState :=
  acts.foldl HistoryState.step HistoryState.initial

/-- A concrete failed Job, as produced by an engine-unavailable failure. -/
def jobFailedEx : Job :=
  { id := "42"
  , filename := "doc.png"
  , file_type := "image"
  , created_at := "2024-01-01T00:00:00"
  , processing_time := none
  , status := Status.failed
  , ocr_result := none
  , error_message := some "engine unavailable" }

/-! ## Claims -/

/-- C1: `OCRResultResponse`, returned by every flat-OCR processing
endpoint (`processImage`, `processPdf`) and by result re-fetch
(`getResult`), has exactly the fields id, filename, file_type,
created_at, processing_time (nullable), status, ocr_result (nullable,
containing text, blocks as a list of OCRBlock values {text, confidence,
bbox, page} with page optional, and markdown), and error_message
(nullable). -/
theorem ocrResultResponse_shape :
    fieldNames Types.OCRResultResponse =
      ["id", "filename", "file_type", "created_at", "processing_time",
       "status", "ocr_result", "error_message"] ∧
    fieldType Types.OCRResultResponse "processing_time" =
      some (TsType.nullable TsType.str) ∧
    fieldType Types.OCRResultResponse "ocr_result" =
      some (TsType.nullable (TsType.named "OCRResult")) ∧
    fieldType Types.OCRResultResponse "error_message" =
      some (TsType.nullable TsType.str) ∧
    fieldNames Types.OCRResult = ["text", "blocks", "markdown"] ∧
    fieldType Types.OCRResult "blocks" =
      some (TsType.array (TsType.named "OCRBlock")) ∧
    fieldType Types.OCRResult "markdown" = some (TsType.nullable TsType.str) ∧
    fieldNames Types.OCRBlock = ["text", "confidence", "bbox", "page"] ∧
    (∀ f ∈ Types.OCRBlock, f.optional = true ↔ f.name = "page") ∧
    (∀ f ∈ Types.OCRResultResponse, f.optional = false) ∧
    ocrApi.processImage.responseType = "OCRResultResponse" ∧
    ocrApi.processPdf.responseType = "OCRResultResponse" ∧
    (∀ id : String, (ocrApi.getResult id).responseType = "OCRResultResponse") := by
  refine ⟨by decide, by decide, by decide, by decide, by decide, by decide,
    by decide, by decide, by decide, by decide, rfl, rfl, fun id => rfl⟩

/-- C2: in every response type carrying a job — `OCRResultResponse`,
`StructureResultResponse` and the history list items — the status field
is the same named type `ProcessingStatus`, whose domain is exactly the
four values pending, processing, completed, failed. -/
theorem status_domain_uniform :
    Types.ProcessingStatus = ["pending", "processing", "completed", "failed"] ∧
    Types.ProcessingStatus.length = 4 ∧
    Types.ProcessingStatus.Nodup ∧
    fieldType Types.OCRResultResponse "status" =
      some (TsType.named "ProcessingStatus") ∧
    fieldType Types.StructureResultResponse "status" =
      some (TsType.named "ProcessingStatus") ∧
    fieldType Types.HistoryListItem "status" =
      some (TsType.named "ProcessingStatus") ∧
    (∀ s : Status, s.toStr ∈ Types.ProcessingStatus) ∧
    [Status.pending.toStr, Status.processing.toStr, Status.completed.toStr,
      Status.failed.toStr] = Types.ProcessingStatus := by
  refine ⟨rfl, rfl, by decide, by decide, by decide, by decide, fun s => ?_, rfl⟩
  cases s <;> decide

/-- C5: `OCRResult.markdown` is nullable and the flat-OCR aggregation
(modelled from the spec) always leaves it null, whereas
`StructureResult.markdown` is a non-nullable string, hence always
present on a completed structure job. -/
theorem markdown_nullability :
    fieldType Types.OCRResult "markdown" = some (TsType.nullable TsType.str) ∧
    fieldType Types.StructureResult "markdown" = some TsType.str ∧
    (∀ t : TsType, fieldType Types.StructureResult "markdown" = some t →
      ∀ u : TsType, t ≠ TsType.nullable u) ∧
    (∀ pages : List (String × List OCRBlockV), (aggregate pages).2.2 = none) := by
  refine ⟨by decide, by decide, ?_, fun pages => rfl⟩
  intro t ht u
  have h : t = TsType.str := by
    have : some t = some TsType.str := by rw [← ht]; decide
    exact (Option.some.injEq ..).mp this.symm |>.symm
  subst h
  intro hcontra
  exact TsType.noConfusion hcontra

/-- C6: `StructureResultResponse` has exactly the fields id, filename,
created_at, processing_time (nullable), status, structure_result
(nullable, containing blocks as a list of {type, content, bbox,
confidence}, markdown, and tables), and error_message (nullable); in
particular it has no file_type field, while `OCRResultResponse` does. -/
theorem structureResultResponse_shape :
    fieldNames Types.StructureResultResponse =
      ["id", "filename", "created_at", "processing_time", "status",
       "structure_result", "error_message"] ∧
    fieldType Types.StructureResultResponse "processing_time" =
      some (TsType.nullable TsType.str) ∧
    fieldType Types.StructureResultResponse "structure_result" =
      some (TsType.nullable (TsType.named "StructureResult")) ∧
    fieldType Types.StructureResultResponse "error_message" =
      some (TsType.nullable TsType.str) ∧
    fieldType Types.StructureResultResponse "file_type" = none ∧
    fieldType Types.OCRResultResponse "file_type" = some TsType.str ∧
    fieldNames Types.StructureResult = ["blocks", "markdown", "tables"] ∧
    fieldType Types.StructureResult "blocks" =
      some (TsType.array (TsType.named "StructureBlock")) ∧
    fieldNames Types.StructureBlock = ["type", "content", "bbox", "confidence"] ∧
    (∀ f ∈ Types.StructureResultResponse, f.optional = false) := by
  refine ⟨by decide, by decide, by decide, by decide, by decide, by decide,
    by decide, by decide, by decide, by decide⟩

/-- Witness for C1: the concrete `page` field of `OCRBlock` is the
optional one. -/
theorem ocrResultResponse_shape_witness :
    ((⟨"page", TsType.num, true⟩ : TsField).optional = true ↔
      (⟨"page", TsType.num, true⟩ : TsField).name = "page") ∧
    (⟨"id", TsType.str, false⟩ : TsField).optional = false :=
  ⟨ocrResultResponse_shape.2.2.2.2.2.2.2.2.1 ⟨"page", TsType.num, true⟩ (by decide),
   ocrResultResponse_shape.2.2.2.2.2.2.2.2.2.1 ⟨"id", TsType.str, false⟩ (by decide)⟩


/-- Witness for C5: instantiating the non-nullability conjunct at the
concrete markdown type of `StructureResult`. -/
theorem markdown_nullability_witness :
    TsType.str ≠ TsType.nullable TsType.str :=
  markdown_nullability.2.2.1 TsType.str (by decide) TsType.str

/-- Witness for C6: the concrete `id` field of `StructureResultResponse`
is not optional. -/
theorem structureResultResponse_shape_witness :
    (⟨"id", TsType.str, false⟩ : TsField).optional = false :=
  structureResultResponse_shape.2.2.2.2.2.2.2.2.2 ⟨"id", TsType.str, false⟩ (by decide)

/-- C3: upload routing — structure mode always POSTs to
`/api/ocr/structure`; in OCR mode a file of MIME type `application/pdf`
is POSTed to `/api/ocr/pdf` and any other file to `/api/ocr/image`; each
upload issues exactly one request, to one of these three distinct
endpoints. -/
theorem upload_routing :
    (∀ ft : String, handleUpload ft Mode.structure = ocrApi.analyzeStructure) ∧
    (∀ ft : String, ft = "application/pdf" →
      handleUpload ft Mode.ocr = ocrApi.processPdf) ∧
    (∀ ft : String, ft ≠ "application/pdf" →
      handleUpload ft Mode.ocr = ocrApi.processImage) ∧
    (∀ (ft : String) (mode : Mode),
      (handleUpload ft mode).method = "POST" ∧
      (handleUpload ft mode).fullPath ∈
        ["/api/ocr/structure", "/api/ocr/pdf", "/api/ocr/image"]) ∧
    ocrApi.analyzeStructure.fullPath = "/api/ocr/structure" ∧
    ocrApi.processPdf.fullPath = "/api/ocr/pdf" ∧
    ocrApi.processImage.fullPath = "/api/ocr/image" ∧
    ("/api/ocr/structure" : String) ≠ "/api/ocr/pdf" ∧
    ("/api/ocr/structure" : String) ≠ "/api/ocr/image" ∧
    ("/api/ocr/pdf" : String) ≠ "/api/ocr/image" := by
  refine ⟨fun ft => rfl, fun ft h => by simp [handleUpload, h],
    fun ft h => by simp [handleUpload, h], fun ft mode => ?_,
    by decide, by decide, by decide, by decide, by decide, by decide⟩
  cases mode
  · by_cases h : ft = "application/pdf"
    · simp only [handleUpload, if_pos h]
      exact ⟨rfl, by decide⟩
    · simp only [handleUpload, if_neg h]
      exact ⟨rfl, by decide⟩
  · simp only [handleUpload]
    exact ⟨rfl, by decide⟩

/-- Witness for C3: routing evaluated at a PDF and at a PNG. -/
theorem upload_routing_witness :
    handleUpload "application/pdf" Mode.structure = ocrApi.analyzeStructure ∧
    handleUpload "application/pdf" Mode.ocr = ocrApi.processPdf ∧
    handleUpload "image/png" Mode.ocr = ocrApi.processImage :=
  ⟨upload_routing.1 "application/pdf",
   upload_routing.2.1 "application/pdf" rfl,
   upload_routing.2.2.1 "image/png" (by decide)⟩

/-- C4: a processing failure is delivered as an ordinary response body
(modelled from the spec) carrying status failed and a non-null
error_message, and the `OCRResult` view shows the error box exactly when
the active result's status is failed — with the error_message as its
text (default text when error_message is null) — and never shows the
content tabs in that case. -/
theorem failure_rendering :
    (∀ j : Job, j.wf → j.status = Status.failed →
      (jobToResponse j).status = Status.failed ∧
      (jobToResponse j).error_message ≠ none) ∧
    (∀ (res : Option OCRResultResponseV) (sres : Option StructureResultResponseV)
       (v : RenderedView), OCRResultView res sres = some v →
      ((v.showsErrorBox = true) ↔ activeStatus res sres = some Status.failed) ∧
      (v.showsErrorBox = true → v.showsContentTabs = false) ∧
      (activeErrorMessage res sres = some none →
        v.errorText = "An error occurred") ∧
      (∀ m : String, m ≠ "" → activeErrorMessage res sres = some (some m) →
        v.errorText = m)) := by
  constructor
  · intro j hwf hfail
    exact ⟨hfail, hwf.2.mpr hfail⟩
  · intro res sres v hv
    unfold OCRResultView at hv
    rcases hst : activeStatus res sres with _ | st
    · rw [hst] at hv; exact absurd hv (by simp)
    rcases hem : activeErrorMessage res sres with _ | em
    · rw [hst, hem] at hv; exact absurd hv (by simp)
    rw [hst, hem] at hv
    simp only [Option.some.injEq] at hv
    subst hv
    refine ⟨?_, ?_, ?_, ?_⟩
    · simp only [Option.some.injEq]
      constructor
      · intro h
        exact of_decide_eq_true h
      · intro h
        exact decide_eq_true h
    · intro h
      simp only at h ⊢
      rw [h]
      simp
    · intro hnull
      simp only [Option.some.injEq] at hnull
      subst hnull
      rfl
    · intro m hm hmsg
      simp only [Option.some.injEq] at hmsg
      subst hmsg
      simp [jsStrOr, hm]

/-- Witness for C4: a concrete failed job is delivered with status
failed and a non-null error message, and the concrete rendered view
shows its message. -/
theorem failure_rendering_witness :
    (jobToResponse jobFailedEx).status = Status.failed ∧
    (jobToResponse jobFailedEx).error_message ≠ none ∧
    (OCRResultView (some (jobToResponse jobFailedEx)) none).map
      RenderedView.errorText = some "engine unavailable" := by
  have h1 := failure_rendering.1 jobFailedEx ⟨by decide, by decide⟩ rfl
  have h2 := (failure_rendering.2 (some (jobToResponse jobFailedEx)) none
      ⟨true, "engine unavailable", false⟩ (by decide)).2.2.2 "engine unavailable"
      (by decide) (by decide)
  refine ⟨h1.1, h1.2, ?_⟩
  rw [show OCRResultView (some (jobToResponse jobFailedEx)) none =
      some ⟨true, "engine unavailable", false⟩ from by decide]
  exact congrArg some h2

/-- Counterexample for C7: the frontend upload issues a processing
request for a PNG one byte over 50MB — the dropzone configuration has
no size option, so the size constraint is not enforced before the
request is issued. -/
theorem upload_size_not_enforced :
    requestIssued "image/png" (MAX_UPLOAD_SIZE + 1) = true ∧
    ¬ (∀ (mime : String) (size : Nat),
        requestIssued mime size = true → size ≤ MAX_UPLOAD_SIZE) := by
  refine ⟨by decide, fun h => ?_⟩
  have := h "image/png" (MAX_UPLOAD_SIZE + 1) (by decide)
  omega

/-- C7 (amended): the frontend dropzone enforces the file-type
constraint and single-file limit before any processing request is
issued — only PNG, JPEG, WEBP and PDF MIME types are accepted,
independent of size — while the 50MB size limit is enforced (modelled
from the spec) at the backend ingestion boundary, so a Job is only
created for an accepted type within the size limit. -/
theorem ingestion_constraints :
    (∀ (mime : String) (size : Nat), requestIssued mime size = true →
      mime ∈ ["image/png", "image/jpeg", "image/webp", "application/pdf"]) ∧
    dropzoneMaxFiles = 1 ∧
    (∀ (mime : String) (size : Nat), requestIssued mime size = dropzoneAccepts mime) ∧
    (∀ (mime : String) (size : Nat), jobCreated mime size = true →
      mime ∈ ["image/png", "image/jpeg", "image/webp", "application/pdf"] ∧
      size ≤ MAX_UPLOAD_SIZE) := by
  have hmem : ∀ mime : String, dropzoneAccepts mime = true →
      mime ∈ ["image/png", "image/jpeg", "image/webp", "application/pdf"] := by
    intro mime h
    have h2 := of_decide_eq_true h
    simpa [dropzoneAccept, ACCEPTED_IMAGE_TYPES, ACCEPTED_PDF_TYPES] using h2
  refine ⟨fun mime size h => hmem mime h, rfl, fun mime size => rfl, ?_⟩
  intro mime size h
  unfold jobCreated ingestionGate at h
  rw [Bool.and_eq_true] at h
  exact ⟨hmem mime h.1, of_decide_eq_true h.2⟩

/-- Witness for C7 (amended): a 5-byte PNG upload issues a request and
its MIME type is among the accepted ones; a job is created for it and is
within the size limit. -/
theorem ingestion_constraints_witness :
    ("image/png" ∈ ["image/png", "image/jpeg", "image/webp", "application/pdf"]) ∧
    ("image/png" ∈ ["image/png", "image/jpeg", "image/webp", "application/pdf"] ∧
      5 ≤ MAX_UPLOAD_SIZE) :=
  ⟨ingestion_constraints.1 "image/png" 5 (by decide),
   ingestion_constraints.2.2.2 "image/png" 5 (by decide)⟩

/-- The pagination arithmetic of `historyTotalPages` is exactly the
ceiling of `total / page_size`: it is the least `c` with
`total ≤ page_size * c`. -/
theorem historyTotalPages_ceil (h : HistoryListResponseV) (hps : 0 < h.page_size)
    (c : Nat) : historyTotalPages (some h) ≤ c ↔ h.total ≤ h.page_size * c := by
  unfold historyTotalPages
  rw [Nat.div_le_iff_le_mul_add_pred hps]
  omega

/-- C8: with page_size a fixed 10 — which is what `fetchHistory` always
requests — 25 stored jobs paginate (per the spec-modelled
`HistoryStore.list`) into pages of 10, 10 and 5 items with total = 25
reported on every page, and the History view displays
`Math.ceil(total / page_size)` pages, which for 25 jobs is 3. -/
theorem history_pagination :
    (∀ jobs : List String, jobs.length = 25 →
      (HistoryStore.list jobs 1 10).1.length = 10 ∧
      (HistoryStore.list jobs 1 10).2 = 25 ∧
      (HistoryStore.list jobs 2 10).1.length = 10 ∧
      (HistoryStore.list jobs 2 10).2 = 25 ∧
      (HistoryStore.list jobs 3 10).1.length = 5 ∧
      (HistoryStore.list jobs 3 10).2 = 25) ∧
    (∀ s : HistoryState, s.fetchCall = historyApi.list s.page 10 none) ∧
    HistoryState.initial.fetchCall.path = "/history?page=1&page_size=10" ∧
    (∀ (h : HistoryListResponseV) (c : Nat), 0 < h.page_size →
      (historyTotalPages (some h) ≤ c ↔ h.total ≤ h.page_size * c)) ∧
    historyTotalPages (some ⟨25, 10⟩) = 3 := by
  refine ⟨?_, fun s => rfl, by decide,
    fun h c hps => historyTotalPages_ceil h hps c, by decide⟩
  intro jobs hlen
  unfold HistoryStore.list
  refine ⟨?_, hlen, ?_, hlen, ?_, hlen⟩ <;>
    · rw [List.length_take, List.length_drop, hlen]
      omega

/-- Witness for C8: the pagination facts evaluated over 25 concrete
stored jobs and the concrete 25/10 listing. -/
theorem history_pagination_witness :
    ((HistoryStore.list (List.replicate 25 "job") 1 10).1.length = 10 ∧
     (HistoryStore.list (List.replicate 25 "job") 1 10).2 = 25 ∧
     (HistoryStore.list (List.replicate 25 "job") 2 10).1.length = 10 ∧
     (HistoryStore.list (List.replicate 25 "job") 2 10).2 = 25 ∧
     (HistoryStore.list (List.replicate 25 "job") 3 10).1.length = 5 ∧
     (HistoryStore.list (List.replicate 25 "job") 3 10).2 = 25) ∧
    (historyTotalPages (some ⟨25, 10⟩) ≤ 3 ↔ 25 ≤ 10 * 3) :=
  ⟨history_pagination.1 (List.replicate 25 "job") (by simp),
   history_pagination.2.2.2.1 ⟨25, 10⟩ 3 (by decide)⟩

/-- Every action of the `useOCR` hook leaves a state in which `result`
and `structureResult` are not both non-null, whatever the state it
started from: each operation clears both before setting at most one. -/
theorem UseOCRState.step_exclusive (s : UseOCRState) (a : OCRAction) :
    (s.step a).exclusive := by
  cases a with
  | beginOp => exact Or.inl rfl
  | processImage o => cases o with
    | success r => exact Or.inr rfl
    | failure m => exact Or.inl rfl
  | processPdf o => cases o with
    | success r => exact Or.inr rfl
    | failure m => exact Or.inl rfl
  | analyzeStructure o => cases o with
    | success r => exact Or.inl rfl
    | failure m => exact Or.inl rfl
  | loadFromHistory o => cases o with
    | success r => exact Or.inr rfl
    | failure m => exact Or.inl rfl
  | reset => exact Or.inl rfl

/-- The invariant holds after folding any action sequence over any state
that satisfies it. -/
theorem UseOCRState.foldl_exclusive (acts : List OCRAction) (s : UseOCRState)
    (hs : s.exclusive) : (acts.foldl UseOCRState.step s).exclusive := by
  induction acts generalizing s with
  | nil => exact hs
  | cons a rest ih => exact ih (s.step a) (s.step_exclusive a)

/-- C9: in the `useOCR` hook at most one of `result` and
`structureResult` is ever non-null — every operation clears `error`,
`result` and `structureResult` in its prologue, on success sets exactly
one of the two result slots, `reset` restores the initial state, and
every state reachable from the initial state by hook actions satisfies
the mutual-exclusion invariant. -/
theorem useOCR_exclusive :
    (∀ s : UseOCRState, s.opBegin.error = none ∧ s.opBegin.result = none ∧
      s.opBegin.structureResult = none ∧ s.opBegin.isLoading = true) ∧
    (∀ (s : UseOCRState) (r : OCRResultResponseV),
      (s.processImage (Outcome.success r)).result = some r ∧
      (s.processImage (Outcome.success r)).structureResult = none) ∧
    (∀ (s : UseOCRState) (r : OCRResultResponseV),
      (s.processPdf (Outcome.success r)).result = some r ∧
      (s.processPdf (Outcome.success r)).structureResult = none) ∧
    (∀ (s : UseOCRState) (r : StructureResultResponseV),
      (s.analyzeStructure (Outcome.success r)).structureResult = some r ∧
      (s.analyzeStructure (Outcome.success r)).result = none) ∧
    (∀ (s : UseOCRState) (r : OCRResultResponseV),
      (s.loadFromHistory (Outcome.success r)).result = some r ∧
      (s.loadFromHistory (Outcome.success r)).structureResult = none) ∧
    (∀ s : UseOCRState, s.reset = UseOCRState.initial) ∧
    (∀ acts : List OCRAction, (UseOCRState.run acts).exclusive) :=
  ⟨fun _s => ⟨rfl, rfl, rfl, rfl⟩,
   fun _s _r => ⟨rfl, rfl⟩,
   fun _s _r => ⟨rfl, rfl⟩,
   fun _s _r => ⟨rfl, rfl⟩,
   fun _s _r => ⟨rfl, rfl⟩,
   fun _s => rfl,
   fun acts => UseOCRState.foldl_exclusive acts UseOCRState.initial (Or.inl rfl)⟩

/-- Every event of the History component keeps the page number at
least 1: fetches leave it unchanged, Previous clamps at 1, and Next is
only enabled when `totalPages > 1`. -/
theorem HistoryState.step_page_pos (s : HistoryState) (a : HistoryAction)
    (hs : 1 ≤ s.page) : 1 ≤ (s.step a).page := by
  cases a with
  | fetched resp => exact hs
  | clickPrev =>
    simp only [HistoryState.step]
    split
    · exact le_max_left 1 _
    · exact hs
  | clickNext =>
    simp only [HistoryState.step]
    split
    · rename_i hcond
      rw [Bool.and_eq_true] at hcond
      have h1 : 1 < s.totalPages := by
        have := hcond.1
        unfold HistoryState.paginationShown at this
        exact of_decide_eq_true this
      simp only [nextHandler]
      omega
    · exact hs

/-- The page number stays at least 1 after folding any event sequence
over a state whose page number is at least 1. -/
theorem HistoryState.foldl_page_pos (acts : List HistoryAction) (s : HistoryState)
    (hs : 1 ≤ s.page) : 1 ≤ (acts.foldl HistoryState.step s).page := by
  induction acts generalizing s with
  | nil => exact hs
  | cons a rest ih => exact ih (s.step a) (s.step_page_pos a hs)

/-- Counterexample for C10: after the component fetches a listing with
total = 0 (an empty history) the page number is 1 while
`Math.ceil(total / page_size)` is 0, so the fetched-state bound
"page ≤ ceil(total / page_size)" claimed of the view does not hold; a
re-fetch returning a smaller total than before leaves the page above the
new page count in the same way. -/
theorem history_page_bound_fails :
    (HistoryState.run [HistoryAction.fetched ⟨0, 10⟩]).page = 1 ∧
    (HistoryState.run [HistoryAction.fetched ⟨0, 10⟩]).history = some ⟨0, 10⟩ ∧
    (HistoryState.run [HistoryAction.fetched ⟨0, 10⟩]).totalPages = 0 ∧
    ¬ ((HistoryState.run [HistoryAction.fetched ⟨0, 10⟩]).page ≤
       (HistoryState.run [HistoryAction.fetched ⟨0, 10⟩]).totalPages) := by
  refine ⟨rfl, rfl, rfl, ?_⟩
  decide

/-- C10 (amended): the History view's page number is always at least 1,
and the click handlers keep it within the fetched listing's bounds —
Previous computes `max(1, page - 1)`, Next computes
`min(totalPages, page + 1)` so a Next click never raises the page above
`totalPages` (and never lowers it below 1), and each button is disabled
at its boundary (Previous at page = 1, Next at page = totalPages).  The
global bound `page ≤ ceil(total / page_size)` holds only against the
listing in force when the page was set, not after a fetch that shrinks
the total. -/
theorem history_page_controls :
    (∀ acts : List HistoryAction, 1 ≤ (HistoryState.run acts).page) ∧
    (∀ s : HistoryState,
      (s.step HistoryAction.clickNext).page ≤ max s.page s.totalPages) ∧
    (∀ s : HistoryState, 1 ≤ s.page →
      (s.step HistoryAction.clickPrev).page ≤ s.page ∧
      1 ≤ (s.step HistoryAction.clickPrev).page) ∧
    (∀ s : HistoryState, s.page = 1 → s.prevDisabled = true) ∧
    (∀ s : HistoryState, s.page = s.totalPages → s.nextDisabled = true) ∧
    (∀ p : Nat, prevHandler p = max 1 (p - 1)) ∧
    (∀ totalPages p : Nat, nextHandler totalPages p = min totalPages (p + 1)) := by
  refine ⟨?_, ?_, ?_, ?_, ?_, fun p => rfl, fun tp p => rfl⟩
  · intro acts
    exact HistoryState.foldl_page_pos acts HistoryState.initial le_rfl
  · intro s
    simp only [HistoryState.step]
    split
    · rename_i hcond
      rw [Bool.and_eq_true] at hcond
      have h1 : 1 < s.totalPages := by
        have := hcond.1
        unfold HistoryState.paginationShown at this
        exact of_decide_eq_true this
      simp only [nextHandler]
      omega
    · exact le_max_left s.page s.totalPages
  · intro s hs
    simp only [HistoryState.step]
    split
    · constructor
      · simp only [prevHandler]
        omega
      · exact le_max_left 1 _
    · exact ⟨le_rfl, hs⟩
  · intro s h
    exact decide_eq_true h
  · intro s h
    exact decide_eq_true h

/-- Witness for C10 (amended): the click-handler bounds evaluated on a
concrete state at page 2 of a 3-page listing, and the disabled states at
both boundaries. -/
theorem history_page_controls_witness :
    (((⟨2, some ⟨25, 10⟩⟩ : HistoryState).step HistoryAction.clickPrev).page ≤ 2 ∧
     1 ≤ ((⟨2, some ⟨25, 10⟩⟩ : HistoryState).step HistoryAction.clickPrev).page) ∧
    (⟨1, some ⟨25, 10⟩⟩ : HistoryState).prevDisabled = true ∧
    (⟨3, some ⟨25, 10⟩⟩ : HistoryState).nextDisabled = true :=
  ⟨history_page_controls.2.2.1 ⟨2, some ⟨25, 10⟩⟩ (by decide),
   history_page_controls.2.2.2.1 ⟨1, some ⟨25, 10⟩⟩ rfl,
   history_page_controls.2.2.2.2.1 ⟨3, some ⟨25, 10⟩⟩ (by decide)⟩
